import Mathlib

/-!
Shallow embedding of the terraform-provider-openstack CRUD adapters that the
claims refer to.  Go strings are modelled as `List Char`; calls into the
gophercloud SDK and the Terraform plugin SDK polling helpers are modelled as
oracles supplied through an environment record, and every adapter run returns
its outcome together with the ordered trace of SDK calls it issued.
-/

/-- Go strings, modelled as lists of characters. -/
abbrev Str := List Char

/-- Index of the leftmost occurrence of `sep` in `s`, if any (the search
performed by Go `strings.Split` / `strings.SplitN`). -/
def firstOcc (sep : Str) : Str → Option Nat
  | [] => if sep.isEmpty then some 0 else none
  | c :: t => if sep.isPrefixOf (c :: t) then some 0 else (firstOcc sep t).map (· + 1)

/-- Fueled worker for `goSplit`.  The fuel only bounds the recursion depth;
`goSplit` always supplies enough for it never to run out. -/
def goSplitGas (sep : Str) : Nat → Str → List Str
  | 0, s => [s]
  | gas + 1, s =>
    match firstOcc sep s with
    | none => [s]
    | some i => s.take i :: goSplitGas sep gas (s.drop (i + sep.length))

/-- Go `strings.Split` for a non-empty separator: cut around every
non-overlapping leftmost occurrence of `sep`. -/
def goSplit (sep s : Str) : List Str := goSplitGas sep (s.length + 1) s

/-- Go `strings.SplitN(s, sep, 2)`: cut around the first occurrence of `sep`
only, yielding one or two parts. -/
def goSplitN2 (sep s : Str) : List Str :=
  match firstOcc sep s with
  | none => [s]
  | some i => [s.take i, s.drop (i + sep.length)]

/-- `resourceNetworkingSubnetRouteV2BuildID`:
`fmt.Sprintf("%s-route-%s-%s", subnetID, dstCIDR, nextHop)`. -/
def resourceNetworkingSubnetRouteV2BuildID (subnetID dstCIDR nextHop : Str) : Str :=
  subnetID ++ "-route-".data ++ dstCIDR ++ "-".data ++ nextHop

/-- `resourceNetworkingSubnetRouteV2ParseID`: split on `"-route-"`, demand
exactly two parts, split the last part on `"-"`, demand exactly two parts. -/
def resourceNetworkingSubnetRouteV2ParseID (subnetID : Str) :
    Except Str (Str × Str × Str) :=
  let routeIDAllParts := goSplit "-route-".data subnetID
  if routeIDAllParts.length ≠ 2 then
    .error ("invalid ID format: ".data ++ subnetID)
  else
    let routeIDLastPart := routeIDAllParts.getD 1 []
    let routeIDLastParts := goSplit "-".data routeIDLastPart
    if routeIDLastParts.length ≠ 2 then
      .error ("invalid last part format for ".data ++ subnetID ++ ": ".data ++
        routeIDLastPart)
    else
      .ok (routeIDAllParts.getD 0 [], routeIDLastParts.getD 0 [],
        routeIDLastParts.getD 1 [])

/-- Error message returned by `resourceMonitorV2Import` for a bad ID. -/
def monitorImportErrMsg : Str :=
  "Invalid format specified for openstack_lb_monitor_v2. Format must be <monitorID>[/<poolID>]".data

/-- `resourceMonitorV2Import`: `strings.SplitN(d.Id(), "/", 2)`; fail when the
part before the first slash is empty, otherwise return the new resource ID and
optionally the `pool_id` attribute value to set. -/
def resourceMonitorV2Import (s : Str) : Except Str (Str × Option Str) :=
  let parts := goSplitN2 "/".data s
  let monitorID := parts.getD 0 []
  if monitorID.length = 0 then
    .error monitorImportErrMsg
  else
    .ok (monitorID, if parts.length = 2 then some (parts.getD 1 []) else none)

deriving instance DecidableEq for Except

/-- Success test for a modelled Go call result. -/
def isOkB {α : Type} (r : Except Str α) : Bool :=
  match r with
  | .ok _ => true
  | .error _ => false

/-- One entry of the `Pools` list in a gophercloud monitor response. -/
structure LBPool where
  id : Str
  deriving DecidableEq, Inhabited

/-- A gophercloud `monitors.Monitor` response. -/
structure Monitor where
  id : Str
  projectID : Str
  typ : Str
  delay : Int
  timeout : Int
  maxRetries : Int
  maxRetriesDown : Int
  urlPath : Str
  httpMethod : Str
  expectedCodes : Str
  adminStateUp : Bool
  name : Str
  pools : List LBPool
  deriving DecidableEq, Inhabited

/-- Terraform attribute values of an `openstack_lb_monitor_v2` resource as
returned by `d.Get` on each schema key. -/
structure MonitorData where
  poolId : Str
  tenantId : Str
  monitorType : Str
  delay : Int
  timeout : Int
  maxRetries : Int
  maxRetriesDown : Int
  urlPath : Str
  httpMethod : Str
  expectedCodes : Str
  name : Str
  adminStateUp : Bool
  deriving DecidableEq, Inhabited

/-- gophercloud `monitors.CreateOpts`; the Go field `AdminStateUp *bool` is
modelled by the pointed-to boolean, which `resourceMonitorV2Create` always
sets (`&adminStateUp`). -/
structure MonitorCreateOpts where
  poolID : Str
  tenantID : Str
  typ : Str
  delay : Int
  timeout : Int
  maxRetries : Int
  maxRetriesDown : Int
  urlPath : Str
  httpMethod : Str
  expectedCodes : Str
  name : Str
  adminStateUp : Bool
  deriving DecidableEq, Inhabited

/-- gophercloud `monitors.UpdateOpts`; plain Go fields start at their zero
value and pointer fields at `none`. -/
structure MonitorUpdateOpts where
  urlPath : Str := []
  expectedCodes : Str := []
  delay : Int := 0
  timeout : Int := 0
  maxRetries : Int := 0
  maxRetriesDown : Int := 0
  adminStateUp : Option Bool := none
  name : Option Str := none
  httpMethod : Str := []
  deriving DecidableEq, Inhabited

/-- The SDK/helper calls an `openstack_lb_monitor_v2` adapter can issue,
recorded in order. -/
inductive LBCall where
  | poolsGet
  | waitPool
  | monitorsCreate (opts : MonitorCreateOpts)
  | monitorsGet
  | waitMonitor
  | monitorsUpdate (opts : MonitorUpdateOpts)
  | setId (s : Str)
  | readResource
  deriving DecidableEq

/-- Does the call create a monitor (`monitors.Create`)? -/
def LBCall.isCreateCall : LBCall → Bool
  | .monitorsCreate _ => true
  | _ => false

/-- Does the call update a monitor (`monitors.Update`)? -/
def LBCall.isUpdateCall : LBCall → Bool
  | .monitorsUpdate _ => true
  | _ => false

/-- Outcome of one adapter run: the Go error (`none` means success), the
resource ID stored by `d.SetId` (`none` when never set), and the ordered call
trace. -/
structure RunOut (ev : Type) where
  err : Option Str
  idSet : Option Str
  calls : List ev
  deriving DecidableEq

/-- Oracle outcomes for the calls an `openstack_lb_monitor_v2` adapter can
issue; `readOut` is the outcome of the trailing `resourceMonitorV2Read`. -/
structure MonitorEnv where
  client : Except Str Unit
  poolsGet : Except Str LBPool
  waitPool : Except Str Unit
  monitorsCreate : Except Str Monitor
  monitorsGet : Except Str Monitor
  waitMonitorA : Except Str Unit
  monitorsUpdate : Except Str Unit
  waitMonitorB : Except Str Unit
  readOut : Option Str
  deriving DecidableEq

/-- The `monitors.CreateOpts` literal built by `resourceMonitorV2Create` from
the schema attributes. -/
def monitorV2CreateOpts (d : MonitorData) : MonitorCreateOpts where
  poolID := d.poolId
  tenantID := d.tenantId
  typ := d.monitorType
  delay := d.delay
  timeout := d.timeout
  maxRetries := d.maxRetries
  maxRetriesDown := d.maxRetriesDown
  urlPath := d.urlPath
  httpMethod := d.httpMethod
  expectedCodes := d.expectedCodes
  name := d.name
  adminStateUp := d.adminStateUp

/-- `resourceMonitorV2Create`: create the LB client, build `CreateOpts`, fetch
the parent pool, wait for it to become ACTIVE, create the monitor (inside
`resource.Retry`, modelled as a single call), wait for the monitor to become
ACTIVE, store the ID and re-read. -/
def resourceMonitorV2Create (d : MonitorData) (env : MonitorEnv) : RunOut LBCall :=
  match env.client with
  | .error e =>
    { err := some ("Error creating OpenStack networking client: ".data ++ e),
      idSet := none, calls := [] }
  | .ok _ =>
    let createOpts := monitorV2CreateOpts d
    match env.poolsGet with
    | .error e =>
      { err := some ("Unable to retrieve parent openstack_lb_pool_v2 ".data ++
          d.poolId ++ ": ".data ++ e),
        idSet := none, calls := [.poolsGet] }
    | .ok _parentPool =>
      match env.waitPool with
      | .error e =>
        { err := some e, idSet := none, calls := [.poolsGet, .waitPool] }
      | .ok _ =>
        match env.monitorsCreate with
        | .error e =>
          { err := some ("Unable to create openstack_lb_monitor_v2: ".data ++ e),
            idSet := none,
            calls := [.poolsGet, .waitPool, .monitorsCreate createOpts] }
        | .ok monitor =>
          match env.waitMonitorA with
          | .error e =>
            { err := some e, idSet := none,
              calls := [.poolsGet, .waitPool, .monitorsCreate createOpts,
                .waitMonitor] }
          | .ok _ =>
            { err := env.readOut, idSet := some monitor.id,
              calls := [.poolsGet, .waitPool, .monitorsCreate createOpts,
                .waitMonitor, .setId monitor.id, .readResource] }

/-- The stored Terraform state attributes of an `openstack_lb_monitor_v2`. -/
structure MonitorAttrs where
  region : Str
  poolId : Str
  name : Str
  tenantId : Str
  monitorType : Str
  delay : Int
  timeout : Int
  maxRetries : Int
  maxRetriesDown : Int
  urlPath : Str
  httpMethod : Str
  expectedCodes : Str
  adminStateUp : Bool
  deriving DecidableEq, Inhabited

/-- The sequence of `d.Set` calls performed by `resourceMonitorV2Read` after a
successful `monitors.Get`, applied to the prior state `st`; `pool_id` is only
set when the response lists a pool with a non-empty first ID (the
OpenContrail workaround). -/
def resourceMonitorV2ReadSets (st : MonitorAttrs) (monitor : Monitor)
    (region : Str) : MonitorAttrs :=
  let st := { st with tenantId := monitor.projectID }
  let st := { st with monitorType := monitor.typ }
  let st := { st with delay := monitor.delay }
  let st := { st with timeout := monitor.timeout }
  let st := { st with maxRetries := monitor.maxRetries }
  let st := { st with maxRetriesDown := monitor.maxRetriesDown }
  let st := { st with urlPath := monitor.urlPath }
  let st := { st with httpMethod := monitor.httpMethod }
  let st := { st with expectedCodes := monitor.expectedCodes }
  let st := { st with adminStateUp := monitor.adminStateUp }
  let st := { st with name := monitor.name }
  let st := { st with region := region }
  if monitor.pools.length > 0 ∧ (monitor.pools.headD default).id ≠ [] then
    { st with poolId := (monitor.pools.headD default).id }
  else st

/-- Which attributes `d.HasChange` reports as changed inside
`resourceMonitorV2Update`. -/
structure MonitorDiff where
  urlPath : Bool
  expectedCodes : Bool
  delay : Bool
  timeout : Bool
  maxRetries : Bool
  maxRetriesDown : Bool
  adminStateUp : Bool
  name : Bool
  httpMethod : Bool
  deriving DecidableEq

/-- The diff in which none of the nine tracked attributes changed. -/
def noMonitorChange : MonitorDiff :=
  ⟨false, false, false, false, false, false, false, false, false⟩

/-- The `monitors.UpdateOpts` accumulated by the `d.HasChange` cascade of
`resourceMonitorV2Update`. -/
def monitorV2UpdateOpts (diff : MonitorDiff) (d : MonitorData) :
    MonitorUpdateOpts :=
  let opts : MonitorUpdateOpts := {}
  let opts := if diff.urlPath then { opts with urlPath := d.urlPath } else opts
  let opts :=
    if diff.expectedCodes then { opts with expectedCodes := d.expectedCodes } else opts
  let opts := if diff.delay then { opts with delay := d.delay } else opts
  let opts := if diff.timeout then { opts with timeout := d.timeout } else opts
  let opts :=
    if diff.maxRetries then { opts with maxRetries := d.maxRetries } else opts
  let opts :=
    if diff.maxRetriesDown then { opts with maxRetriesDown := d.maxRetriesDown } else opts
  let opts :=
    if diff.adminStateUp then { opts with adminStateUp := some d.adminStateUp } else opts
  let opts := if diff.name then { opts with name := some d.name } else opts
  if diff.httpMethod then { opts with httpMethod := d.httpMethod } else opts

/-- The `hasChange` flag of `resourceMonitorV2Update`: true when any of the
nine tracked attributes changed. -/
def monitorV2HasChange (diff : MonitorDiff) : Bool :=
  diff.urlPath || diff.expectedCodes || diff.delay || diff.timeout ||
  diff.maxRetries || diff.maxRetriesDown || diff.adminStateUp || diff.name ||
  diff.httpMethod

/-- `resourceMonitorV2Update` for the monitor with id `rid`: accumulate
`UpdateOpts` from the changed attributes; when nothing changed just re-read,
otherwise fetch the parent pool and the monitor, wait for both to become
ACTIVE, send `monitors.Update` (inside `resource.Retry`, modelled as a single
call), wait again and re-read. -/
def resourceMonitorV2Update (d : MonitorData) (rid : Str) (diff : MonitorDiff)
    (env : MonitorEnv) : RunOut LBCall :=
  match env.client with
  | .error e =>
    { err := some ("Error creating OpenStack networking client: ".data ++ e),
      idSet := none, calls := [] }
  | .ok _ =>
    let hasChange := monitorV2HasChange diff
    let opts := monitorV2UpdateOpts diff d
    if hasChange = false then
      { err := env.readOut, idSet := none, calls := [.readResource] }
    else
      match env.poolsGet with
      | .error e =>
        { err := some ("Unable to retrieve parent openstack_lb_pool_v2 ".data ++
            d.poolId ++ ": ".data ++ e),
          idSet := none, calls := [.poolsGet] }
      | .ok _ =>
        match env.monitorsGet with
        | .error e =>
          { err := some ("Unable to retrieve openstack_lb_monitor_v2 ".data ++
              rid ++ ": ".data ++ e),
            idSet := none, calls := [.poolsGet, .monitorsGet] }
        | .ok _ =>
          match env.waitPool with
          | .error e =>
            { err := some e, idSet := none,
              calls := [.poolsGet, .monitorsGet, .waitPool] }
          | .ok _ =>
            match env.waitMonitorA with
            | .error e =>
              { err := some e, idSet := none,
                calls := [.poolsGet, .monitorsGet, .waitPool, .waitMonitor] }
            | .ok _ =>
              match env.monitorsUpdate with
              | .error e =>
                { err := some ("Unable to update openstack_lb_monitor_v2 ".data ++
                    rid ++ ": ".data ++ e),
                  idSet := none,
                  calls := [.poolsGet, .monitorsGet, .waitPool, .waitMonitor,
                    .monitorsUpdate opts] }
              | .ok _ =>
                match env.waitMonitorB with
                | .error e =>
                  { err := some e, idSet := none,
                    calls := [.poolsGet, .monitorsGet, .waitPool, .waitMonitor,
                      .monitorsUpdate opts, .waitMonitor] }
                | .ok _ =>
                  { err := env.readOut, idSet := none,
                    calls := [.poolsGet, .monitorsGet, .waitPool, .waitMonitor,
                      .monitorsUpdate opts, .waitMonitor, .readResource] }

/-- A gophercloud error, distinguishing the 404 case that
`DatabaseInstanceV1StateRefreshFunc` special-cases via `ErrDefault404`. -/
inductive GoErr where
  | default404
  | other (msg : Str)
  deriving DecidableEq

/-- A gophercloud `instances.Instance` response (the fields the embedded
adapters use). -/
structure DbInstance where
  id : Str
  status : Str
  deriving DecidableEq, Inhabited

/-- gophercloud `instances.DatastoreOpts`. -/
structure DatastoreOpts where
  version : Str
  typ : Str
  deriving DecidableEq, Inhabited

/-- gophercloud `instances.NetworkOpts`. -/
structure DbNetworkOpts where
  uuid : Str
  port : Str
  v4FixedIP : Str
  v6FixedIP : Str
  deriving DecidableEq, Inhabited

/-- gophercloud `instances.CreateOpts`. -/
structure DbCreateOpts where
  flavorRef : Str
  name : Str
  size : Int
  datastore : DatastoreOpts
  networks : List DbNetworkOpts
  deriving DecidableEq, Inhabited

/-- Terraform attribute values of an `openstack_db_instance_v1` resource;
`datastore` and `network` are single-element `TypeList` blocks, `none` when
absent (`d.GetOk` fails). -/
structure DbData where
  name : Str
  flavorId : Str
  size : Int
  datastore : Option DatastoreOpts
  network : Option DbNetworkOpts
  deriving DecidableEq, Inhabited

/-- The `instances.CreateOpts` built by `resourceDatabaseInstanceV1Create`:
the datastore block when present (zero-valued otherwise, mirroring the Go
`var datastore instances.DatastoreOpts`), and at most one network block. -/
def dbInstanceV1CreateOpts (d : DbData) : DbCreateOpts :=
  let datastore :=
    match d.datastore with
    | some ds => ds
    | none => { version := [], typ := [] }
  let networks :=
    match d.network with
    | some n => [n]
    | none => []
  { flavorRef := d.flavorId, name := d.name, size := d.size,
    datastore := datastore, networks := networks }

/-- The fields of the `resource.StateChangeConf` built by the database
instance adapters; its `Refresh` is `DatabaseInstanceV1StateRefreshFunc` for
the instance `refreshID`. -/
structure DbStateConf where
  pending : List Str
  target : List Str
  refreshID : Str
  deriving DecidableEq

/-- The SDK/helper calls `resourceDatabaseInstanceV1Create` can issue. -/
inductive DbCall where
  | instancesCreate (opts : DbCreateOpts)
  | waitForState (conf : DbStateConf)
  | setId (s : Str)
  | readResource
  deriving DecidableEq

/-- Oracle outcomes for the calls of `resourceDatabaseInstanceV1Create`;
`waitForState` succeeding models `stateConf.WaitForState()` reaching the
target state. -/
structure DbEnv where
  client : Except Str Unit
  instancesCreate : Except Str DbInstance
  waitForState : Except Str Unit
  readOut : Option Str
  deriving DecidableEq

/-- `resourceDatabaseInstanceV1Create`: create the client, build
`CreateOpts`, call `instances.Create`, poll via `StateChangeConf` with
pending `BUILD` and target `ACTIVE`, then store the ID and re-read. -/
def resourceDatabaseInstanceV1Create (d : DbData) (env : DbEnv) : RunOut DbCall :=
  match env.client with
  | .error e =>
    { err := some ("Error creating cloud database client: ".data ++ e),
      idSet := none, calls := [] }
  | .ok _ =>
    let createOpts := dbInstanceV1CreateOpts d
    match env.instancesCreate with
    | .error e =>
      { err := some ("Error creating cloud database instance: ".data ++ e),
        idSet := none, calls := [.instancesCreate createOpts] }
    | .ok inst =>
      let stateConf : DbStateConf :=
        { pending := ["BUILD".data], target := ["ACTIVE".data],
          refreshID := inst.id }
      match env.waitForState with
      | .error e =>
        { err := some ("Error waiting for instance (".data ++ inst.id ++
            ") to become ready: ".data ++ e),
          idSet := none,
          calls := [.instancesCreate createOpts, .waitForState stateConf] }
      | .ok _ =>
        { err := env.readOut, idSet := some inst.id,
          calls := [.instancesCreate createOpts, .waitForState stateConf,
            .setId inst.id, .readResource] }

/-- `DatabaseInstanceV1StateRefreshFunc`: the closure returned for one
instance, as a function of the `instances.Get` outcome; yields the refresh
payload and status, or an error. -/
def DatabaseInstanceV1StateRefreshFunc (getRes : Except GoErr DbInstance) :
    Except Str (Option DbInstance × Str) :=
  match getRes with
  | .error .default404 => .ok (none, "DELETED".data)
  | .error (.other e) => .error e
  | .ok i =>
    if i.status = "error".data then
      .error "There was an error creating the instance.".data
    else
      .ok (some i, i.status)

/-- A Neutron port (the field the embedded adapter uses). -/
structure Port where
  securityGroups : List Str
  deriving DecidableEq, Inhabited

/-- Modelled from the spec: the `sliceUnion` helper called by
`resourceNetworkingPortSecGroupAssociateV2Create` is not under `src/`; per
the claim's wording it returns the union of two string slices - the first
slice followed by the members of the second not already present. -/
def sliceUnion (s1 s2 : List Str) : List Str :=
  s1 ++ s2.filter (fun v => ! s1.contains v)

/-- Terraform attribute values of an
`openstack_networking_port_secgroup_associate_v2` resource; `enforce` is
`none` when not set in the configuration (its schema default is `true`). -/
structure SecAssocData where
  portId : Str
  securityGroupIds : List Str
  enforce : Option Bool
  deriving DecidableEq, Inhabited

/-- Terraform plugin SDK `d.GetOk` on the boolean `enforce` attribute: the
value is the configured one, or the schema default `true` when unset; `ok` is
false exactly when the value equals the zero value `false`. -/
def getOkEnforce (enforce : Option Bool) : Bool × Bool :=
  let v := enforce.getD true
  (v, v != false)

/-- The SDK calls the port security-group associate adapters can issue. -/
inductive PortCall where
  | portsGet
  | portsUpdate (sgs : List Str)
  | setId (s : Str)
  | setOldSGs (sgs : List Str)
  | readResource
  deriving DecidableEq

/-- Oracle outcomes for the calls of
`resourceNetworkingPortSecGroupAssociateV2Create`. -/
structure PortEnv where
  client : Except Str Unit
  portsGet : Except Str Port
  portsUpdate : Except Str Unit
  readOut : Option Str
  deriving DecidableEq

/-- `resourceNetworkingPortSecGroupAssociateV2Create`: fetch the port, then
send `ports.Update` with either exactly the configured groups (enforce case)
or the union with the port's existing groups; store the port ID and re-read. -/
def resourceNetworkingPortSecGroupAssociateV2Create (d : SecAssocData)
    (env : PortEnv) : RunOut PortCall :=
  match env.client with
  | .error e =>
    { err := some ("Error creating OpenStack networking client: ".data ++ e),
      idSet := none, calls := [] }
  | .ok _ =>
    let securityGroups := d.securityGroupIds
    let portID := d.portId
    match env.portsGet with
    | .error e =>
      { err := some ("Unable to get ".data ++ portID ++ " Port: ".data ++ e),
        idSet := none, calls := [.portsGet] }
    | .ok port =>
      let vok := getOkEnforce d.enforce
      let updateSGs :=
        if vok.2 && vok.1 then securityGroups
        else sliceUnion port.securityGroups securityGroups
      match env.portsUpdate with
      | .error e =>
        { err := some ("Error associating ".data ++ portID ++
            " port with '".data ++ List.intercalate ",".data securityGroups ++
            "' security groups: ".data ++ e),
          idSet := none, calls := [.portsGet, .portsUpdate updateSGs] }
      | .ok _ =>
        { err := env.readOut, idSet := some portID,
          calls := [.portsGet, .portsUpdate updateSGs, .setId portID,
            .setOldSGs port.securityGroups, .readResource] }

/-- A glance image (the fields the data source uses). -/
structure Image where
  id : Str
  name : Str
  deriving DecidableEq, Inhabited

/-- gophercloud `images.ListOpts` as filled by
`dataSourceImagesImageIdsV2Read`; the visibility and member-status enum
conversions are modelled by the underlying strings. -/
structure ImageListOpts where
  name : Str
  visibility : Str
  owner : Str
  status : Str
  sizeMin : Int
  sizeMax : Int
  sort : Str
  sortKey : Str
  sortDir : Str
  tags : List Str
  memberStatus : Str
  deriving DecidableEq, Inhabited

/-- Terraform attribute values of the `openstack_images_image_ids_v2` data
source (string attributes are `""` when unset; `sort_key`/`sort_direction`
carry their schema defaults). -/
structure ImgData where
  name : Str
  nameRegex : Str
  visibility : Str
  memberStatus : Str
  owner : Str
  sizeMin : Int
  sizeMax : Int
  sort : Str
  sortKey : Str
  sortDir : Str
  tag : Str
  deriving DecidableEq, Inhabited

/-- The SDK calls the image IDs data source can issue. -/
inductive ImgCall where
  | listImages (opts : ImageListOpts)
  | setIds (ids : List Str)
  deriving DecidableEq

/-- Does the call list images (`images.List(...).AllPages()`)? -/
def ImgCall.isListCall : ImgCall → Bool
  | .listImages _ => true
  | _ => false

/-- Oracle outcomes for `dataSourceImagesImageIdsV2Read`.  `filterProps` and
`filterRegex` model the helpers `imagesFilterByProperties` and
`imagesFilterByRegex` (not under `src/`), and `hash` models
`hashcode.String(strings.Join(ids, ","))` for `d.SetId`. -/
structure ImgEnv where
  client : Except Str Unit
  list : Except Str Unit
  extract : Except Str (List Image)
  filterProps : List Image → List Image
  filterRegex : List Image → List Image
  hash : List Str → Str

/-- The error returned when both `name` and `name_regex` are configured. -/
def imgConflictMsg : Str :=
  "Attributes name and name_regexp can not be used at the same time".data

/-- `dataSourceImagesImageIdsV2Read`: reject `name` together with
`name_regex`, build `ListOpts` (clearing `sort_key`/`sort_direction` when
`sort` is set), list and extract the images, filter, and store the IDs. -/
def dataSourceImagesImageIdsV2Read (d : ImgData) (env : ImgEnv) :
    RunOut ImgCall :=
  match env.client with
  | .error e =>
    { err := some ("Error creating OpenStack image client: ".data ++ e),
      idSet := none, calls := [] }
  | .ok _ =>
    if d.name ≠ [] ∧ d.nameRegex ≠ [] then
      { err := some imgConflictMsg, idSet := none, calls := [] }
    else
      let sortKeyValue := if d.sort ≠ [] then [] else d.sortKey
      let sortDirectionValue := if d.sort ≠ [] then [] else d.sortDir
      let tags : List Str := if d.tag ≠ [] then [d.tag] else []
      let listOpts : ImageListOpts :=
        { name := d.name, visibility := d.visibility, owner := d.owner,
          status := "active".data, sizeMin := d.sizeMin, sizeMax := d.sizeMax,
          sort := d.sort, sortKey := sortKeyValue,
          sortDir := sortDirectionValue, tags := tags,
          memberStatus := d.memberStatus }
      match env.list with
      | .error e =>
        { err := some ("Unable to list images in openstack_images_image_ids_v2: ".data ++ e),
          idSet := none, calls := [.listImages listOpts] }
      | .ok _ =>
        match env.extract with
        | .error e =>
          { err := some ("Unable to retrieve images in openstack_images_image_ids_v2: ".data ++ e),
            idSet := none, calls := [.listImages listOpts] }
        | .ok allImages0 =>
          let allImages1 := env.filterProps allImages0
          let allImages2 :=
            if d.nameRegex ≠ [] then env.filterRegex allImages1 else allImages1
          let imageIDs := allImages2.map (fun i => i.id)
          { err := none, idSet := some (env.hash imageIDs),
            calls := [.listImages listOpts, .setIds imageIDs] }

/-- The second operand of an append is an infix of the result. -/
theorem infix_append_right (p e : Str) : e <:+: p ++ e :=
  ⟨p, [], by simp⟩

/-- A string with a fixed prefix glued in front never equals a string that
does not start with that prefix. -/
theorem append_ne_of_not_isPrefixOf (pre m : Str)
    (h : pre.isPrefixOf m = false) : ∀ e, pre ++ e ≠ m := by
  intro e he
  have hp : pre.isPrefixOf m = true := List.isPrefixOf_iff_prefix.2 ⟨e, he⟩
  rw [h] at hp
  exact Bool.false_ne_true hp

/-- C1: in `resourceMonitorV2Create` the `monitors.Create` call is issued
exactly when the client, the parent-pool `pools.Get` and the
`waitForLBV2Pool` wait all succeed; when it is issued it comes right after
`pools.Get` and the pool wait in the trace; and when `pools.Get` or the wait
fails the adapter returns an error and never calls `monitors.Create`. -/
theorem monitorV2Create_waits_pool_before_create (d : MonitorData)
    (env : MonitorEnv) (p : LBPool) (e : Str) :
    ((resourceMonitorV2Create d env).calls.any LBCall.isCreateCall =
      (isOkB env.client && isOkB env.poolsGet && isOkB env.waitPool)) ∧
    ((resourceMonitorV2Create d
        { env with
          client := .ok (), poolsGet := .ok p,
          waitPool := .ok () }).calls.take 3 =
      [.poolsGet, .waitPool, .monitorsCreate (monitorV2CreateOpts d)]) ∧
    ((resourceMonitorV2Create d
        { env with client := .ok (), poolsGet := .error e }).err.isSome = true ∧
      (resourceMonitorV2Create d
        { env with
          client := .ok (),
          poolsGet := .error e }).calls.any LBCall.isCreateCall = false) ∧
    ((resourceMonitorV2Create d
        { env with
          client := .ok (), poolsGet := .ok p,
          waitPool := .error e }).err.isSome = true ∧
      (resourceMonitorV2Create d
        { env with
          client := .ok (), poolsGet := .ok p,
          waitPool := .error e }).calls.any LBCall.isCreateCall = false) := by
  obtain ⟨cl, pg, wp, mc, mg, wa, mu, wb, ro⟩ := env
  cases cl <;> cases pg <;> cases wp <;> cases mc <;> cases wa <;>
    simp [resourceMonitorV2Create, isOkB, LBCall.isCreateCall]

/-- C2: for the embedded Create adapters (`resourceMonitorV2Create` and
`resourceDatabaseInstanceV1Create`), a failing SDK call makes the adapter
return an error message embedding the SDK error, with the resource ID left
unset. -/
theorem createAdapters_propagate_sdk_errors (d : MonitorData) (dd : DbData)
    (env : MonitorEnv) (denv : DbEnv) (p : LBPool) (e : Str) :
    ((resourceMonitorV2Create d { env with client := .error e }).err =
        some ("Error creating OpenStack networking client: ".data ++ e) ∧
      e <:+: ("Error creating OpenStack networking client: ".data ++ e) ∧
      (resourceMonitorV2Create d { env with client := .error e }).idSet = none) ∧
    ((resourceMonitorV2Create d
        { env with client := .ok (), poolsGet := .error e }).err =
        some ("Unable to retrieve parent openstack_lb_pool_v2 ".data ++
          d.poolId ++ ": ".data ++ e) ∧
      e <:+: ("Unable to retrieve parent openstack_lb_pool_v2 ".data ++
        d.poolId ++ ": ".data ++ e) ∧
      (resourceMonitorV2Create d
        { env with client := .ok (), poolsGet := .error e }).idSet = none) ∧
    ((resourceMonitorV2Create d
        { env with
          client := .ok (), poolsGet := .ok p, waitPool := .ok (),
          monitorsCreate := .error e }).err =
        some ("Unable to create openstack_lb_monitor_v2: ".data ++ e) ∧
      e <:+: ("Unable to create openstack_lb_monitor_v2: ".data ++ e) ∧
      (resourceMonitorV2Create d
        { env with
          client := .ok (), poolsGet := .ok p, waitPool := .ok (),
          monitorsCreate := .error e }).idSet = none) ∧
    ((resourceDatabaseInstanceV1Create dd { denv with client := .error e }).err =
        some ("Error creating cloud database client: ".data ++ e) ∧
      e <:+: ("Error creating cloud database client: ".data ++ e) ∧
      (resourceDatabaseInstanceV1Create dd
        { denv with client := .error e }).idSet = none) ∧
    ((resourceDatabaseInstanceV1Create dd
        { denv with client := .ok (), instancesCreate := .error e }).err =
        some ("Error creating cloud database instance: ".data ++ e) ∧
      e <:+: ("Error creating cloud database instance: ".data ++ e) ∧
      (resourceDatabaseInstanceV1Create dd
        { denv with client := .ok (), instancesCreate := .error e }).idSet = none) := by
  refine ⟨⟨rfl, infix_append_right _ e, rfl⟩, ⟨rfl, infix_append_right _ e, rfl⟩,
    ⟨rfl, infix_append_right _ e, rfl⟩, ⟨rfl, infix_append_right _ e, rfl⟩,
    ⟨rfl, infix_append_right _ e, rfl⟩⟩

/-- C3: the `monitors.CreateOpts` sent by `resourceMonitorV2Create` (the
third call in its trace once the pool wait succeeded) is built exactly from
the schema attributes, with `AdminStateUp` pointing at the `admin_state_up`
boolean. -/
theorem monitorV2CreateOpts_from_schema (d : MonitorData) (env : MonitorEnv)
    (p : LBPool) :
    (resourceMonitorV2Create d
      { env with
        client := .ok (), poolsGet := .ok p,
        waitPool := .ok () }).calls.getD 2 .readResource =
    .monitorsCreate
      { poolID := d.poolId, tenantID := d.tenantId, typ := d.monitorType,
        delay := d.delay, timeout := d.timeout, maxRetries := d.maxRetries,
        maxRetriesDown := d.maxRetriesDown, urlPath := d.urlPath,
        httpMethod := d.httpMethod, expectedCodes := d.expectedCodes,
        name := d.name, adminStateUp := d.adminStateUp } := by
  obtain ⟨cl, pg, wp, mc, mg, wa, mu, wb, ro⟩ := env
  cases mc <;> cases wa <;>
    simp [resourceMonitorV2Create, monitorV2CreateOpts]

/-- C4: `resourceDatabaseInstanceV1Create` stores the resource ID exactly
when `instances.Create` and the subsequent `StateChangeConf` poll (pending
`BUILD`, target `ACTIVE`, refreshing the created instance via
`DatabaseInstanceV1StateRefreshFunc`) both succeed; a failed poll yields an
error with the ID unset; and the refresh closure reports the instance
status. -/
theorem dbInstanceV1Create_polls_build_to_active (d : DbData) (env : DbEnv)
    (i : DbInstance) (e : Str) :
    ((resourceDatabaseInstanceV1Create d env).idSet.isSome =
      (isOkB env.client && isOkB env.instancesCreate &&
        isOkB env.waitForState)) ∧
    (resourceDatabaseInstanceV1Create d
      { env with
        client := .ok (), instancesCreate := .ok i,
        waitForState := .ok () } =
      { err := env.readOut, idSet := some i.id,
        calls := [.instancesCreate (dbInstanceV1CreateOpts d),
          .waitForState
            { pending := ["BUILD".data], target := ["ACTIVE".data], refreshID := i.id },
          .setId i.id, .readResource] }) ∧
    (resourceDatabaseInstanceV1Create d
      { env with
        client := .ok (), instancesCreate := .ok i,
        waitForState := .error e } =
      { err := some ("Error waiting for instance (".data ++ i.id ++
          ") to become ready: ".data ++ e),
        idSet := none,
        calls := [.instancesCreate (dbInstanceV1CreateOpts d),
          .waitForState
            { pending := ["BUILD".data], target := ["ACTIVE".data], refreshID := i.id }] }) ∧
    (∀ j : DbInstance, DatabaseInstanceV1StateRefreshFunc (.ok j) =
      if j.status = "error".data then
        .error "There was an error creating the instance.".data
      else .ok (some j, j.status)) := by
  obtain ⟨cl, ic, ws, ro⟩ := env
  refine ⟨?_, rfl, rfl, fun j => rfl⟩
  cases cl <;> cases ic <;> cases ws <;>
    simp [resourceDatabaseInstanceV1Create, isOkB]

/-- C5: `resourceMonitorV2Read` copies each response field into state, and
copies the first pool's ID into `pool_id` only when the response lists a pool
with a non-empty ID, leaving `pool_id` untouched otherwise. -/
theorem monitorV2Read_translates_response (st : MonitorAttrs) (m : Monitor)
    (region : Str) :
    (resourceMonitorV2ReadSets st m region).tenantId = m.projectID ∧
    (resourceMonitorV2ReadSets st m region).monitorType = m.typ ∧
    (resourceMonitorV2ReadSets st m region).delay = m.delay ∧
    (resourceMonitorV2ReadSets st m region).timeout = m.timeout ∧
    (resourceMonitorV2ReadSets st m region).maxRetries = m.maxRetries ∧
    (resourceMonitorV2ReadSets st m region).maxRetriesDown = m.maxRetriesDown ∧
    (resourceMonitorV2ReadSets st m region).urlPath = m.urlPath ∧
    (resourceMonitorV2ReadSets st m region).httpMethod = m.httpMethod ∧
    (resourceMonitorV2ReadSets st m region).expectedCodes = m.expectedCodes ∧
    (resourceMonitorV2ReadSets st m region).adminStateUp = m.adminStateUp ∧
    (resourceMonitorV2ReadSets st m region).name = m.name ∧
    ((resourceMonitorV2ReadSets st m region).poolId =
      match m.pools with
      | [] => st.poolId
      | p :: _ => if p.id = [] then st.poolId else p.id) := by
  obtain ⟨mid, mproj, mtyp, mdel, mtim, mmr, mmrd, murl, mhttp, mexp, masu,
    mname, mpools⟩ := m
  cases mpools with
  | nil => simp [resourceMonitorV2ReadSets]
  | cons p rest =>
    by_cases hp : p.id = [] <;>
      simp [resourceMonitorV2ReadSets, hp]

/-- C6: `resourceMonitorV2Update` issues the `monitors.Update` call exactly
when one of the nine tracked attributes changed and every preceding call
(client, `pools.Get`, `monitors.Get`, the pool wait and the monitor wait)
succeeded; and with no change at all it performs nothing but the re-read. -/
theorem monitorV2Update_only_on_change (d : MonitorData) (rid : Str)
    (diff : MonitorDiff) (env : MonitorEnv) :
    ((resourceMonitorV2Update d rid diff env).calls.any LBCall.isUpdateCall =
      (monitorV2HasChange diff && isOkB env.client && isOkB env.poolsGet &&
        isOkB env.monitorsGet && isOkB env.waitPool &&
        isOkB env.waitMonitorA)) ∧
    (resourceMonitorV2Update d rid noMonitorChange
        { env with client := .ok () } =
      { err := env.readOut, idSet := none, calls := [.readResource] }) := by
  obtain ⟨cl, pg, wp, mc, mg, wa, mu, wb, ro⟩ := env
  constructor
  · by_cases hch : monitorV2HasChange diff = false
    · cases cl <;>
        simp [resourceMonitorV2Update, isOkB, LBCall.isUpdateCall, hch]
    · rw [Bool.not_eq_false] at hch
      cases cl <;> cases pg <;> cases mg <;> cases wp <;> cases wa <;>
          cases mu <;> cases wb <;>
        simp [resourceMonitorV2Update, isOkB, LBCall.isUpdateCall, hch]
  · rfl

/-- C7: `dataSourceImagesImageIdsV2Read` fails without listing images when
both `name` and `name_regex` are non-empty (with the dedicated error once the
client was obtained), and never returns that error when at most one of the
two is set. -/
theorem imageIdsV2Read_name_regex_conflict (d : ImgData) (env : ImgEnv)
    (a b : Char) (nas nbs : Str) :
    ((dataSourceImagesImageIdsV2Read
        { d with name := a :: nas, nameRegex := b :: nbs } env).err.isSome = true ∧
      (dataSourceImagesImageIdsV2Read
        { d with name := a :: nas, nameRegex := b :: nbs }
          env).calls.any ImgCall.isListCall = false ∧
      (dataSourceImagesImageIdsV2Read
        { d with name := a :: nas, nameRegex := b :: nbs }
          { env with client := .ok () }).err = some imgConflictMsg) ∧
    ((dataSourceImagesImageIdsV2Read { d with name := [] } env).err ≠
      some imgConflictMsg) ∧
    ((dataSourceImagesImageIdsV2Read { d with nameRegex := [] } env).err ≠
      some imgConflictMsg) := by
  obtain ⟨cl, ls, ex, fp, fr, hs⟩ := env
  refine ⟨?_, ?_, ?_⟩
  · cases cl <;>
      simp [dataSourceImagesImageIdsV2Read, ImgCall.isListCall]
  · cases cl with
    | error e =>
      simp only [dataSourceImagesImageIdsV2Read]
      intro h
      exact append_ne_of_not_isPrefixOf _ _ (by decide) e (Option.some_injective _ h)
    | ok u =>
      cases ls with
      | error e =>
        simp only [dataSourceImagesImageIdsV2Read]
        split
        · simp_all
        · intro h
          exact append_ne_of_not_isPrefixOf _ _ (by decide) e
            (Option.some_injective _ h)
      | ok v =>
        cases ex with
        | error e =>
          simp only [dataSourceImagesImageIdsV2Read]
          split
          · simp_all
          · intro h
            exact append_ne_of_not_isPrefixOf _ _ (by decide) e
              (Option.some_injective _ h)
        | ok imgs =>
          simp only [dataSourceImagesImageIdsV2Read]
          split
          · simp_all
          · simp
  · cases cl with
    | error e =>
      simp only [dataSourceImagesImageIdsV2Read]
      intro h
      exact append_ne_of_not_isPrefixOf _ _ (by decide) e (Option.some_injective _ h)
    | ok u =>
      cases ls with
      | error e =>
        simp only [dataSourceImagesImageIdsV2Read]
        split
        · simp_all
        · intro h
          exact append_ne_of_not_isPrefixOf _ _ (by decide) e
            (Option.some_injective _ h)
      | ok v =>
        cases ex with
        | error e =>
          simp only [dataSourceImagesImageIdsV2Read]
          split
          · simp_all
          · intro h
            exact append_ne_of_not_isPrefixOf _ _ (by decide) e
              (Option.some_injective _ h)
        | ok imgs =>
          simp only [dataSourceImagesImageIdsV2Read]
          split
          · simp_all
          · simp

/-- C9 (amended): `resourceNetworkingPortSecGroupAssociateV2Create` sends a
port update whose security-group list is exactly the configured set when the
effective `enforce` value (schema default `true` applied when unset) is
true, and the union of the port's existing groups with the configured set
when `enforce` is explicitly false. -/
theorem portSecGroupAssociateV2Create_sent_groups (d : SecAssocData)
    (env : PortEnv) (port : Port) :
    resourceNetworkingPortSecGroupAssociateV2Create d
      { env with
        client := .ok (), portsGet := .ok port, portsUpdate := .ok () } =
    { err := env.readOut, idSet := some d.portId,
      calls := [.portsGet,
        .portsUpdate (if d.enforce.getD true then d.securityGroupIds
          else sliceUnion port.securityGroups d.securityGroupIds),
        .setId d.portId, .setOldSGs port.securityGroups, .readResource] } := by
  obtain ⟨pid, sgs, enf⟩ := d
  cases enf with
  | none =>
    simp [resourceNetworkingPortSecGroupAssociateV2Create, getOkEnforce]
  | some b =>
    cases b <;>
      simp [resourceNetworkingPortSecGroupAssociateV2Create, getOkEnforce]

/-- C9 (counterexample): with `enforce` unset, a port already holding group
`sgA` and configuration `[sgB]`, the adapter sends exactly `[sgB]`, not the
union `[sgA, sgB]` the claim demands for an unset `enforce`. -/
theorem portSecGroupAssociateV2Create_unset_enforce_not_union :
    (resourceNetworkingPortSecGroupAssociateV2Create
        { portId := "p1".data, securityGroupIds := ["sgB".data],
          enforce := none }
        { client := .ok (), portsGet := .ok { securityGroups := ["sgA".data] },
          portsUpdate := .ok (), readOut := none }).calls =
      [.portsGet, .portsUpdate ["sgB".data], .setId "p1".data,
        .setOldSGs ["sgA".data], .readResource] ∧
    (["sgB".data] : List Str) ≠ sliceUnion ["sgA".data] ["sgB".data] := by
  exact ⟨rfl, by decide⟩

/-- `firstOcc` for a single-character separator: when the character occurs,
the match index is the length of the leading run of other characters. -/
theorem firstOcc_singleton (c : Char) (s : Str) :
    firstOcc [c] s =
      if c ∈ s then some (s.takeWhile (· ≠ c)).length else none := by
  induction s with
  | nil => simp [firstOcc]
  | cons a t ih =>
    by_cases hac : c = a
    · subst hac
      simp [firstOcc, List.isPrefixOf, List.takeWhile_cons]
    · have hac' : ¬a = c := fun h => hac h.symm
      have hpre : List.isPrefixOf [c] (a :: t) = false := by
        simp [List.isPrefixOf_cons₂, List.isPrefixOf, hac]
      by_cases hmem : c ∈ t
      · simp [firstOcc, hpre, ih, hmem, List.takeWhile_cons, hac, hac']
      · simp [firstOcc, hpre, ih, hmem, hac, hac']

/-- Taking as many characters as the `takeWhile` run yields that run. -/
theorem take_takeWhile_length (p : Char → Bool) (s : Str) :
    s.take (s.takeWhile p).length = s.takeWhile p :=
  (List.prefix_iff_eq_take.1 (List.takeWhile_prefix p)).symm

/-- Dropping one character more than the `takeWhile` run drops the head of
the `dropWhile` remainder. -/
theorem drop_takeWhile_length_succ (p : Char → Bool) (s : Str) :
    s.drop ((s.takeWhile p).length + 1) = (s.dropWhile p).drop 1 := by
  conv_lhs => rw [← List.takeWhile_append_dropWhile p s]
  rw [List.drop_append_eq_append_drop]
  simp [List.drop_eq_nil_of_le]

/-- C10: `resourceMonitorV2Import` fails exactly when the part of the import
ID before the first `/` is empty (the ID is empty or starts with `/`);
otherwise it returns that part as the resource ID, together with the
remainder after the first `/` as `pool_id` exactly when the ID contains a
`/`. -/
theorem monitorV2Import_splits_on_slash (s : Str) :
    (resourceMonitorV2Import s =
      if s.takeWhile (· ≠ '/') = [] then .error monitorImportErrMsg
      else .ok (s.takeWhile (· ≠ '/'),
        if '/' ∈ s then some ((s.dropWhile (· ≠ '/')).drop 1) else none)) ∧
    (s.takeWhile (· ≠ '/') = [] ↔ s = [] ∨ s.head? = some '/') := by
  constructor
  · have hdata : "/".data = ['/'] := rfl
    by_cases hm : ('/' : Char) ∈ s
    · have h1 : goSplitN2 "/".data s =
          [s.takeWhile (· ≠ '/'), (s.dropWhile (· ≠ '/')).drop 1] := by
        simp only [goSplitN2, hdata, firstOcc_singleton, hm, if_true]
        rw [take_takeWhile_length]
        have : (['/'] : Str).length = 1 := rfl
        rw [this, drop_takeWhile_length_succ]
      simp only [resourceMonitorV2Import, h1, List.getD_cons_zero,
        List.getD_cons_succ, List.length_cons, List.length_nil,
        List.length_eq_zero]
      rw [if_pos hm]
      simp
    · have h1 : goSplitN2 "/".data s = [s] := by
        simp only [goSplitN2, hdata, firstOcc_singleton, hm, if_false]
      have hself : s.takeWhile (· ≠ '/') = s := by
        rw [List.takeWhile_eq_self_iff]
        intro x hx
        simp only [ne_eq, decide_eq_true_eq]
        rintro rfl
        exact hm hx
      simp only [resourceMonitorV2Import, h1, List.getD_cons_zero,
        List.length_cons, List.length_nil, List.length_eq_zero, hself]
      rw [if_neg hm]
      simp
  · cases s with
    | nil => simp
    | cons a t =>
      by_cases ha : a = '/'
      · subst ha; simp [List.takeWhile_cons]
      · simp [List.takeWhile_cons, ha]

/-- A `firstOcc` hit marks a real occurrence of the separator. -/
theorem firstOcc_isPrefixOf_drop (sep : Str) :
    ∀ (s : Str) (i : Nat), firstOcc sep s = some i →
      sep.isPrefixOf (s.drop i) = true := by
  intro s
  induction s with
  | nil =>
    intro i h
    simp only [firstOcc] at h
    split at h
    · obtain rfl : 0 = i := Option.some_injective _ h
      have : sep = [] := List.isEmpty_iff.1 (by assumption)
      subst this
      rfl
    · exact absurd h (by simp)
  | cons c t ih =>
    intro i h
    simp only [firstOcc] at h
    split at h
    · obtain rfl : 0 = i := Option.some_injective _ h
      rw [List.drop_zero]
      assumption
    · rw [Option.map_eq_some'] at h
      obtain ⟨j, hj, rfl⟩ := h
      rw [List.drop_succ_cons]
      exact ih j hj

/-- A `firstOcc` hit lies inside the string. -/
theorem firstOcc_le_length (sep : Str) :
    ∀ (s : Str) (i : Nat), firstOcc sep s = some i → i ≤ s.length := by
  intro s
  induction s with
  | nil =>
    intro i h
    simp only [firstOcc] at h
    split at h
    · obtain rfl : 0 = i := Option.some_injective _ h
      simp
    · exact absurd h (by simp)
  | cons c t ih =>
    intro i h
    simp only [firstOcc] at h
    split at h
    · obtain rfl : 0 = i := Option.some_injective _ h
      simp
    · rw [Option.map_eq_some'] at h
      obtain ⟨j, hj, rfl⟩ := h
      have := ih j hj
      simp only [List.length_cons]
      omega

/-- A `firstOcc` hit leaves room for the whole separator. -/
theorem firstOcc_add_sep_le (sep s : Str) (i : Nat)
    (h : firstOcc sep s = some i) : i + sep.length ≤ s.length := by
  have h1 := firstOcc_isPrefixOf_drop sep s i h
  have h2 := firstOcc_le_length sep s i h
  have h3 : sep <+: s.drop i := List.isPrefixOf_iff_prefix.1 h1
  have h4 := h3.length_le
  rw [List.length_drop] at h4
  omega

/-- If the separator occurs nowhere, `firstOcc` reports no hit. -/
theorem firstOcc_none_of_no_match (sep s : Str) (hsep : sep ≠ [])
    (h : ∀ i, sep.isPrefixOf (s.drop i) = false) : firstOcc sep s = none := by
  induction s with
  | nil =>
    have : sep.isEmpty = false := by
      cases sep
      · exact absurd rfl hsep
      · rfl
    simp [firstOcc, this]
  | cons c t ih =>
    have h0 := h 0
    rw [List.drop_zero] at h0
    have ht : firstOcc sep t = none := by
      apply ih
      intro i
      have := h (i + 1)
      rwa [List.drop_succ_cons] at this
    simp [firstOcc, h0, ht]

/-- When the separator occurs nowhere before the glued-in copy, `firstOcc`
on `A ++ sep ++ B` hits exactly at the end of `A`. -/
theorem firstOcc_append_self (sep : Str) (hsep : sep ≠ []) :
    ∀ (A : Str) (B : Str),
      (∀ i, i < A.length → sep.isPrefixOf ((A ++ (sep ++ B)).drop i) = false) →
      firstOcc sep (A ++ (sep ++ B)) = some A.length := by
  intro A
  induction A with
  | nil =>
    intro B _
    have hpre : sep.isPrefixOf (sep ++ B) = true :=
      List.isPrefixOf_iff_prefix.2 (List.prefix_append sep B)
    rw [List.nil_append]
    cases hs : sep ++ B with
    | nil =>
      cases sep with
      | nil => exact absurd rfl hsep
      | cons c t => simp at hs
    | cons c t =>
      rw [hs] at hpre
      simp [firstOcc, hpre]
  | cons a A' ih =>
    intro B h
    have h0 := h 0 (by simp)
    rw [List.drop_zero] at h0
    have ht : firstOcc sep (A' ++ (sep ++ B)) = some A'.length := by
      apply ih
      intro i hi
      have := h (i + 1) (by simp only [List.length_cons]; omega)
      rwa [List.cons_append, List.drop_succ_cons] at this
    rw [List.cons_append]
    rw [List.cons_append] at h0
    simp [firstOcc, h0, ht]

/-- The fuel of `goSplitGas` is irrelevant once it exceeds the string
length. -/
theorem goSplitGas_congr (sep : Str) (hsep : sep ≠ []) :
    ∀ (g1 g2 : Nat) (s : Str), s.length < g1 → s.length < g2 →
      goSplitGas sep g1 s = goSplitGas sep g2 s := by
  intro g1
  induction g1 with
  | zero =>
    intro g2 s h1 h2
    omega
  | succ g ih =>
    intro g2 s h1 h2
    cases g2 with
    | zero => omega
    | succ g2' =>
      cases hf : firstOcc sep s with
      | none => simp only [goSplitGas, hf]
      | some i =>
        simp only [goSplitGas, hf]
        have hb := firstOcc_add_sep_le sep s i hf
        have hsl : 1 ≤ sep.length := List.length_pos.2 hsep
        rw [ih g2' (s.drop (i + sep.length)) (by rw [List.length_drop]; omega)
          (by rw [List.length_drop]; omega)]

/-- `goSplit` returns the whole string when the separator never occurs. -/
theorem goSplit_eq_single (sep s : Str) (hsep : sep ≠ [])
    (h : ∀ i, sep.isPrefixOf (s.drop i) = false) : goSplit sep s = [s] := by
  have hf := firstOcc_none_of_no_match sep s hsep h
  simp [goSplit, goSplitGas, hf]

/-- `goSplit` peels off `A` when the separator occurs nowhere before its
glued-in copy. -/
theorem goSplit_append_sep (sep A B : Str) (hsep : sep ≠ [])
    (h : ∀ i, i < A.length → sep.isPrefixOf ((A ++ (sep ++ B)).drop i) = false) :
    goSplit sep (A ++ (sep ++ B)) = A :: goSplit sep B := by
  have hf := firstOcc_append_self sep hsep A B h
  have hsl : 1 ≤ sep.length := List.length_pos.2 hsep
  unfold goSplit
  simp only [goSplitGas, hf]
  rw [List.take_left]
  have hlen : A.length + sep.length = (A ++ sep).length :=
    (List.length_append _ _).symm
  rw [hlen, ← List.append_assoc, List.drop_left]
  rw [goSplitGas_congr sep hsep _ (B.length + 1) B
    (by simp [List.length_append]; omega) (by omega)]
  simp only [goSplitGas]

/-- A single character absent from `l` never begins any suffix of `l`. -/
theorem singleton_no_match (c : Char) (l : Str) (h : c ∉ l) :
    ∀ i, ([c] : Str).isPrefixOf (l.drop i) = false := by
  intro i
  by_contra hb
  rw [Bool.not_eq_false] at hb
  have hp : [c] <+: l.drop i := List.isPrefixOf_iff_prefix.1 hb
  have hc : c ∈ l.drop i := hp.sublist.subset (by simp)
  exact h ((List.drop_sublist i l).subset hc)

/-- Splitting `dst ++ "-" ++ hop` on `"-"` recovers the two dash-free
parts. -/
theorem goSplit_dash (dst hop : Str) (hdst : '-' ∉ dst) (hhop : '-' ∉ hop) :
    goSplit ['-'] (dst ++ '-' :: hop) = [dst, hop] := by
  have hA : ∀ i, i < dst.length →
      (['-'] : Str).isPrefixOf ((dst ++ (['-'] ++ hop)).drop i) = false := by
    intro i hi
    by_contra hb
    rw [Bool.not_eq_false] at hb
    have hp : ['-'] <+: (dst ++ (['-'] ++ hop)).drop i :=
      List.isPrefixOf_iff_prefix.1 hb
    rw [List.drop_append_eq_append_drop, Nat.sub_eq_zero_of_le (le_of_lt hi),
      List.drop_zero] at hp
    obtain ⟨t, ht⟩ := hp
    cases hd : dst.drop i with
    | nil =>
      have : dst.length - i = 0 := by
        rw [← List.length_drop, hd]; rfl
      omega
    | cons a r =>
      rw [hd, List.singleton_append, List.cons_append] at ht
      injection ht with ha _
      have hmem : a ∈ dst := (List.drop_sublist i dst).subset (by rw [hd]; simp)
      exact hdst (ha ▸ hmem)
  have h1 := goSplit_append_sep ['-'] dst hop (by simp) hA
  have h2 : goSplit ['-'] hop = [hop] :=
    goSplit_eq_single ['-'] hop (by simp) (singleton_no_match '-' hop hhop)
  rw [h2] at h1
  simpa using h1

/-- `"-route-"` never occurs inside `dst ++ "-" ++ hop` when neither part
holds a dash: the separator holds two dashes but the string only one. -/
theorem routeSep_no_match_in_tail (dst hop : Str) (hdst : '-' ∉ dst)
    (hhop : '-' ∉ hop) :
    ∀ i, ("-route-".data).isPrefixOf ((dst ++ '-' :: hop).drop i) = false := by
  intro i
  by_contra hb
  rw [Bool.not_eq_false] at hb
  have hp : "-route-".data <+: (dst ++ '-' :: hop).drop i :=
    List.isPrefixOf_iff_prefix.1 hb
  have hsub : ("-route-".data).Sublist (dst ++ '-' :: hop) :=
    hp.sublist.trans (List.drop_sublist _ _)
  have hcount := hsub.count_le '-'
  have c1 : List.count '-' dst = 0 := List.count_eq_zero.2 hdst
  have c2 : List.count '-' hop = 0 := List.count_eq_zero.2 hhop
  have c3 : List.count '-' ("-route-".data) = 2 := by decide
  rw [c3, List.count_append, c1, List.count_cons, c2] at hcount
  simp at hcount

/-- When the subnet ID is free of `"-route"`, the separator `"-route-"`
occurs nowhere strictly before its glued-in copy. -/
theorem routeSep_no_early_match (A B : Str) (hA : ¬ "-route".data <:+: A) :
    ∀ i, i < A.length →
      ("-route-".data).isPrefixOf ((A ++ ("-route-".data ++ B)).drop i) = false := by
  intro i hi
  by_contra hb
  rw [Bool.not_eq_false] at hb
  have hp : "-route-".data <+: (A.drop i) ++ ("-route-".data ++ B) := by
    have := List.isPrefixOf_iff_prefix.1 hb
    rwa [List.drop_append_eq_append_drop, Nat.sub_eq_zero_of_le (le_of_lt hi),
      List.drop_zero] at this
  obtain ⟨t, ht⟩ := hp
  have h7len : ("-route-".data : Str).length = 7 := rfl
  by_cases hk7 : 7 ≤ (A.drop i).length
  · have e1 : ("-route-".data : Str) = (A.drop i).take 7 := by
      have h1 : (("-route-".data ++ t) : Str).take 7 = "-route-".data :=
        List.take_left' rfl
      rw [ht, List.take_append_eq_append_take, Nat.sub_eq_zero_of_le hk7] at h1
      simpa using h1.symm
    have hpref : "-route".data <+: A.drop i := by
      have h2 : "-route".data <+: "-route-".data := ⟨['-'], by decide⟩
      rw [e1] at h2
      exact h2.trans (List.take_prefix 7 (A.drop i))
    exact hA (hpref.isInfix.trans (List.drop_suffix i A).isInfix)
  · obtain ⟨k, hk⟩ : ∃ k, (A.drop i).length = k := ⟨_, rfl⟩
    have hk1 : 1 ≤ k := by
      rw [← hk, List.length_drop]; omega
    have hk6 : k ≤ 6 := by omega
    have e2 : ("-route-".data : Str).take k = A.drop i := by
      have h1 := congrArg (List.take k) ht
      rw [List.take_append_eq_append_take, List.take_append_eq_append_take,
        h7len, hk, Nat.sub_self, Nat.sub_eq_zero_of_le (by omega : k ≤ 7),
        List.take_zero, List.take_zero, List.append_nil, List.append_nil,
        List.take_of_length_le (le_of_eq hk)] at h1
      exact h1
    have e3 : ("-route-".data : Str).drop k ++ t = "-route-".data ++ B := by
      have h2 := congrArg (List.drop k) ht
      rw [List.drop_append_eq_append_drop, List.drop_append_eq_append_drop,
        h7len, hk, Nat.sub_self, Nat.sub_eq_zero_of_le (by omega : k ≤ 7),
        List.drop_zero, List.drop_zero,
        List.drop_eq_nil_of_le (le_of_eq hk), List.nil_append] at h2
      exact h2
    have e4 : ("-route-".data : Str).drop k = ("-route-".data : Str).take (7 - k) := by
      have h3 := congrArg (List.take (7 - k)) e3
      rw [List.take_append_eq_append_take, List.take_append_eq_append_take,
        h7len, List.length_drop, h7len, Nat.sub_self, List.take_zero,
        List.append_nil, Nat.sub_eq_zero_of_le (by omega : 7 - k ≤ 7),
        List.take_zero, List.append_nil] at h3
      have hlen2 : (("-route-".data : Str).drop k).length ≤ 7 - k := by
        rw [List.length_drop, h7len]
      rw [← h3, List.take_of_length_le hlen2]
    interval_cases k
    · exact absurd e4 (by decide)
    · exact absurd e4 (by decide)
    · exact absurd e4 (by decide)
    · exact absurd e4 (by decide)
    · exact absurd e4 (by decide)
    · have hsuf : A.drop i = "-route".data := by
        rw [← e2]; decide
      exact hA ((hsuf ▸ List.drop_suffix i A).isInfix)

/-- C8 (amended): building a subnet-route ID and parsing it back round-trips
whenever the subnet ID does not contain `"-route"` (the claim's condition,
which only excludes `"-route-"`, is not enough) and neither the destination
CIDR nor the next hop contains a dash. -/
theorem subnetRouteV2_build_parse_roundtrip (subnetID dstCIDR nextHop : Str)
    (h1 : ¬ "-route".data <:+: subnetID) (h2 : '-' ∉ dstCIDR)
    (h3 : '-' ∉ nextHop) :
    resourceNetworkingSubnetRouteV2ParseID
      (resourceNetworkingSubnetRouteV2BuildID subnetID dstCIDR nextHop) =
    .ok (subnetID, dstCIDR, nextHop) := by
  have hdashdata : ("-".data : Str) = ['-'] := rfl
  have hbuild : resourceNetworkingSubnetRouteV2BuildID subnetID dstCIDR nextHop =
      subnetID ++ ("-route-".data ++ (dstCIDR ++ '-' :: nextHop)) := by
    rw [resourceNetworkingSubnetRouteV2BuildID, hdashdata]
    simp [List.append_assoc]
  have houter : goSplit "-route-".data
      (subnetID ++ ("-route-".data ++ (dstCIDR ++ '-' :: nextHop))) =
      subnetID :: goSplit "-route-".data (dstCIDR ++ '-' :: nextHop) :=
    goSplit_append_sep _ _ _ (by decide)
      (routeSep_no_early_match subnetID _ h1)
  have hinner : goSplit "-route-".data (dstCIDR ++ '-' :: nextHop) =
      [dstCIDR ++ '-' :: nextHop] :=
    goSplit_eq_single _ _ (by decide)
      (routeSep_no_match_in_tail dstCIDR nextHop h2 h3)
  rw [hbuild]
  simp only [resourceNetworkingSubnetRouteV2ParseID, houter, hinner]
  simp [goSplit_dash dstCIDR nextHop h2 h3]

/-- Witness for the amended C8 round-trip at a concrete, realistic input. -/
theorem subnetRouteV2_build_parse_roundtrip_witness :
    (¬ "-route".data <:+: "abc123-def".data) ∧ ('-' ∉ "10.0.0.0/24".data) ∧
    ('-' ∉ "192.168.1.1".data) ∧
    resourceNetworkingSubnetRouteV2ParseID
      (resourceNetworkingSubnetRouteV2BuildID "abc123-def".data
        "10.0.0.0/24".data "192.168.1.1".data) =
    .ok ("abc123-def".data, "10.0.0.0/24".data, "192.168.1.1".data) :=
  ⟨by decide, by decide, by decide,
    subnetRouteV2_build_parse_roundtrip _ _ _ (by decide) (by decide)
      (by decide)⟩

/-- C8 (counterexample to the claim as stated): the subnet ID `"x-route"`
contains no `"-route-"`, and `"d"`, `"h"` contain no dash, yet parsing the
built ID fails instead of round-tripping. -/
theorem subnetRouteV2_claim_counterexample :
    (¬ "-route-".data <:+: "x-route".data) ∧ ('-' ∉ "d".data) ∧
    ('-' ∉ "h".data) ∧
    resourceNetworkingSubnetRouteV2ParseID
      (resourceNetworkingSubnetRouteV2BuildID "x-route".data "d".data
        "h".data) ≠
    .ok ("x-route".data, "d".data, "h".data) := by
  exact ⟨by decide, by decide, by decide, by decide⟩
